import Mathlib

/-!
Shallow embedding of `oss-cache` (src/index.js): a process-local, named,
TTL-refreshed key/value cache.  Pure functions below are translated from the
JavaScript source; the single-threaded event-loop interleaving of the
`setInterval` timer callback, `refresh()` calls and loader resolutions is
modelled as an explicit step machine (`step`/`run`).  Keys are passed as
`Option α` so that JavaScript `null`/`undefined` keys are representable
(`none`); snapshots map proper keys `α` to values `β`.  JavaScript numbers
that can be `NaN` (the user-supplied `ttl` and the derived `checkTimeMs`)
are `JSNum`; timestamps come from `Date.now()` and are `Nat`.
-/

namespace OssCache

/-- JavaScript number for the `ttl` configuration value: `NaN` or a rational
(the float arithmetic involved here — comparison with 1000 and division by
10 — is exact on the inputs in question). -/
inductive JSNum where
  | nan : JSNum
  | num : ℚ → JSNum
  deriving DecidableEq, Repr

/-- JavaScript `<` on numbers: any comparison with `NaN` is false. -/
def JSNum.ltNum : JSNum → JSNum → Bool
  | .nan, _ => false
  | _, .nan => false
  | .num a, .num b => decide (a < b)

/-- JavaScript `x / 10` as used for `config.checkTimeMs = ttl / 10`:
`NaN / 10` is `NaN`. -/
def JSNum.divTen : JSNum → JSNum
  | .nan => .nan
  | .num a => .num (a / 10)

/-- A JavaScript error value: its `message` and the optional machine-readable
`code` property (set on the `OutOfDateError`). -/
structure JsError where
  message : String
  code : Option String
  deriving DecidableEq, Repr

/-- Error thrown by `validateName` (src/index.js line 42). -/
def nameError : JsError :=
  ⟨"name is required, and must be a string!", none⟩

/-- Error thrown when `asyncLoadFunction` is missing or not an async function
(src/index.js lines 166-168). -/
def loaderError : JsError :=
  ⟨"asyncLoadFunction is required, and must returns a Promise<Map<any, any>>!", none⟩

/-- Error thrown when `ttl < 1000` (src/index.js line 171). -/
def ttlError : JsError :=
  ⟨"ttl must be >= 1000ms, default is 30000ms", none⟩

/-- Error thrown by `get` on an outdated cache: `new Error('Cache is
outdated.')` with `error.code = 'ERR_CACHE_OUT_OF_DATE'` (src/index.js
lines 227-228). -/
def outOfDateError : JsError :=
  ⟨"Cache is outdated.", some "ERR_CACHE_OUT_OF_DATE"⟩

/-- Error thrown by `init` when the name is already registered (src/index.js
lines 156-159). -/
def alreadyInitError (name : String) : JsError :=
  ⟨name ++ " cache is already initialized! Use refresh() function to forcing reload.", none⟩

/-- The snapshot data set: the `Map<any, any>` returned by the loader,
as an association list. -/
abbrev Snapshot (α β : Type) := List (α × β)

/-- JavaScript `map.get(key)` with a possibly `null`/`undefined` key: a
missing key, or a `null`/absent key against a snapshot of proper keys,
yields `undefined` (`none`). -/
def mapGet {α β : Type} [DecidableEq α] (m : Snapshot α β) (key : Option α) : Option β :=
  match key with
  | none => none
  | some a => m.lookup a

/-- Who started a pending (in-flight) loader invocation: the `setInterval`
timer callback, or a forced `refresh()`. -/
inductive LoadOrigin where
  | timer : LoadOrigin
  | forced : LoadOrigin
  deriving DecidableEq, Repr

/-- The mutable per-instance state captured by `init`'s closure
(src/index.js lines 109-122), plus two bookkeeping fields for the
event-loop machine: `pending` is the queue of loader invocations that have
been started but whose promise has not yet settled (each JavaScript `load()`
call runs synchronously up to `await config.asyncLoadFunction()` and then
suspends), and `unhandledRejection` records that a rejected load escaped the
`setInterval(async () => await load(), …)` callback, which installs no
handler. -/
structure CState (α β : Type) where
  map : Snapshot α β
  isOutdated : Bool
  count : Nat
  lastLoadTimestamp : Option Nat
  isForcedReload : Bool
  intervalActive : Bool
  pending : List LoadOrigin
  unhandledRejection : Bool
  deriving DecidableEq, Repr

/-- JavaScript truthiness test `!lastLoadTimestamp` (src/index.js line 130):
`undefined` is falsy, and so is the number `0`. -/
def tsFalsy : Option Nat → Bool
  | none => true
  | some t => t == 0

/-- The `isExpired` computation `Date.now() - lastLoadTimestamp > config.ttl`
(src/index.js line 129): with `lastLoadTimestamp` undefined the subtraction
is `NaN` and the comparison is false; with `ttl = NaN` it is false as well. -/
def isExpiredAt (ttl : JSNum) (now : Nat) : Option Nat → Bool
  | none => false
  | some t =>
    match ttl with
    | .nan => false
    | .num q => decide (q < (((now : Int) - (t : Int) : Int) : ℚ))

/-- The reload decision of `load()` (src/index.js line 130):
`isForcedReload || !lastLoadTimestamp || isExpired`. -/
def loadGuard {α β : Type} (ttl : JSNum) (now : Nat) (s : CState α β) : Bool :=
  s.isForcedReload || tsFalsy s.lastLoadTimestamp || isExpiredAt ttl now s.lastLoadTimestamp

/-- Events emitted on the optional `logEmitter` (the model returns the events
that would be emitted if a sink is attached; absence of a sink changes
nothing else). -/
inductive CacheEvent (α β : Type) where
  | loadEv (name : String) (count : Nat) (wasForced : Bool) (timestamp : Nat) (wasExpired : Bool)
  | refreshEv (name : String) (count : Nat) (lastTs : Option Nat)
  | warnEv (name : String) (message : String)
  | getEv (name : String) (key : Option α) (value : Option β)
  | getUnsafeEv (name : String) (key : Option α) (value : Option β)
  deriving DecidableEq, Repr

/-- The frozen per-instance configuration (src/index.js lines 98-106 and
173-178). -/
structure CacheConfig where
  name : String
  ttl : JSNum
  checkTimeMs : JSNum
  deriving DecidableEq, Repr

/-- One complete, uninterleaved invocation of the internal `load()` routine
(src/index.js lines 128-153), with the loader's outcome supplied as `r`.
Returns the new state, the error the invocation throws (if any), and the
events emitted.  Mirrors the source order: `isExpired` is computed first;
if reloading, `count` is incremented and `lastLoadTimestamp` stamped, the
`load` event is emitted with the pre-clear `isForcedReload`, the flag is
cleared, and only then is the loader's outcome consumed — on failure
`isOutdated` is set and the error rethrown, on success the snapshot is
replaced and `isOutdated` cleared. -/
def loadRun {α β : Type} (cfg : CacheConfig) (now : Nat)
    (r : Except JsError (Snapshot α β)) (s : CState α β) :
    CState α β × Option JsError × List (CacheEvent α β) :=
  let isExpired := isExpiredAt cfg.ttl now s.lastLoadTimestamp
  if s.isForcedReload || tsFalsy s.lastLoadTimestamp || isExpired then
    let ev : CacheEvent α β := .loadEv cfg.name (s.count + 1) s.isForcedReload now isExpired
    let s1 : CState α β :=
      { s with count := s.count + 1, lastLoadTimestamp := some now, isForcedReload := false }
    match r with
    | .ok m => ({ s1 with map := m, isOutdated := false }, none, [ev])
    | .error e => ({ s1 with isOutdated := true }, some e, [ev])
  else (s, none, [])

/-- The `refresh()` method (src/index.js lines 198-207): emits the `refresh`
event with the pre-call `count` and `lastLoadTimestamp`, sets
`isForcedReload`, then awaits `load()` and propagates its outcome. -/
def refreshRun {α β : Type} (cfg : CacheConfig) (now : Nat)
    (r : Except JsError (Snapshot α β)) (s : CState α β) :
    CState α β × Option JsError × List (CacheEvent α β) :=
  let ev : CacheEvent α β := .refreshEv cfg.name s.count s.lastLoadTimestamp
  let out := loadRun cfg now r { s with isForcedReload := true }
  (out.1, out.2.1, ev :: out.2.2)

/-- Result record of `getUnsafe` (src/index.js lines 219-222). -/
structure ReadResult (β : Type) where
  value : Option β
  isOutdated : Bool
  deriving DecidableEq, Repr

/-- The `getUnsafe(key)` method (src/index.js lines 209-223): never throws;
emits a `warn` event when outdated, looks the key up, emits the `getUnsafe`
event, and returns `{ value, isOutdated }`. -/
def getUnsafeRun {α β : Type} [DecidableEq α] (cfg : CacheConfig) (s : CState α β)
    (key : Option α) : ReadResult β × List (CacheEvent α β) :=
  let warns : List (CacheEvent α β) :=
    if s.isOutdated then [.warnEv cfg.name (cfg.name ++ " cache is outdated.")] else []
  let value := mapGet s.map key
  (⟨value, s.isOutdated⟩, warns ++ [.getUnsafeEv cfg.name key value])

/-- The `get(key)` method (src/index.js lines 225-234): throws the
`OutOfDateError` when outdated (before any key lookup), otherwise looks the
key up, emits the `get` event and returns the value. -/
def getRun {α β : Type} [DecidableEq α] (cfg : CacheConfig) (s : CState α β)
    (key : Option α) : Except JsError (Option β) × List (CacheEvent α β) :=
  if s.isOutdated then (.error outOfDateError, [])
  else
    let value := mapGet s.map key
    (.ok value, [.getEv cfg.name key value])

/-- The private `[shutdown]()` method (src/index.js lines 192-196): sets
`isOutdated` and cancels the interval timer.  Nothing else is touched — in
particular `isForcedReload`, the snapshot and the counters survive, and the
returned closure methods keep working on the retained handle. -/
def shutdownRun {α β : Type} (s : CState α β) : CState α β :=
  { s with isOutdated := true, intervalActive := false }

/-- Synchronous prefix of one `load()` call, up to the point where it either
returns without reloading or suspends at `await config.asyncLoadFunction()`
having started a loader invocation (appended to `pending`).  All the state
writes of the reloading branch (counter, timestamp stamp, flag clear) happen
here, before the suspension — this is the stamping the source relies on to
make later timer ticks skip. -/
def loadStart {α β : Type} (ttl : JSNum) (origin : LoadOrigin) (now : Nat)
    (s : CState α β) : CState α β :=
  if loadGuard ttl now s then
    { s with count := s.count + 1, lastLoadTimestamp := some now,
             isForcedReload := false, pending := s.pending ++ [origin] }
  else s

/-- Atomic event-loop turns of one cache instance: a timer tick of the
`setInterval` callback, the synchronous prefix of a `refresh()` call, the
settlement of the oldest in-flight loader invocation, and the registry's
shutdown call. -/
inductive Ev (α β : Type) where
  | tick (now : Nat)
  | refreshCall (now : Nat)
  | resolve (r : Except JsError (Snapshot α β))
  | shutdownEv
  deriving Repr

/-- Bool test used to describe traces that never call `refresh()` on a
retained handle. -/
def Ev.isRefreshCall {α β : Type} : Ev α β → Bool
  | .refreshCall _ => true
  | _ => false

/-- One event-loop turn.  `tick` runs only while the interval is armed
(`clearInterval` stops it); `refreshCall` sets `isForcedReload` and runs the
load prefix (src/index.js lines 205-206); `resolve` settles the oldest
pending loader invocation — on success the snapshot is replaced and
`isOutdated` cleared, on failure `isOutdated` is set and the rethrown error
escapes as an unhandled rejection when the invocation was timer-driven,
since `setInterval(async () => await load(), …)` installs no handler
(src/index.js line 186); `shutdownEv` is the registry-driven shutdown. -/
def step {α β : Type} (ttl : JSNum) (s : CState α β) : Ev α β → CState α β
  | .tick now => if s.intervalActive then loadStart ttl .timer now s else s
  | .refreshCall now => loadStart ttl .forced now { s with isForcedReload := true }
  | .resolve r =>
    match s.pending, r with
    | [], _ => s
    | _ :: rest, .ok m => { s with map := m, isOutdated := false, pending := rest }
    | o :: rest, .error _ =>
      { s with isOutdated := true, pending := rest,
               unhandledRejection := s.unhandledRejection || (o == LoadOrigin.timer) }
  | .shutdownEv => { s with isOutdated := true, intervalActive := false }

/-- Run a sequence of event-loop turns. -/
def run {α β : Type} (ttl : JSNum) (s : CState α β) : List (Ev α β) → CState α β
  | [] => s
  | e :: es => run ttl (step ttl s e) es

/-- A registered instance: its frozen configuration and its current state. -/
structure Instance (α β : Type) where
  config : CacheConfig
  state : CState α β
  deriving DecidableEq, Repr

/-- The module-level `caches` map, name to instance (src/index.js line 5). -/
abbrev Registry (α β : Type) := List (String × Instance α β)

/-- The `validateName` check (src/index.js lines 40-44):
`!name || typeof name !== 'string' || name.trim().length === 0`; a missing
or non-string name is `none`, and `trim().length === 0` holds exactly when
every character of the string is whitespace (also covering the `!name`
empty-string case). -/
def validName : Option String → Bool
  | none => false
  | some s => !(s.data.all fun c => c.isWhitespace)

/-- JavaScript `caches.get(name)` — no validation, a `null`/non-string key
simply misses. -/
def regGet {α β : Type} (reg : Registry α β) (name : Option String) : Option (Instance α β) :=
  match name with
  | none => none
  | some n => reg.lookup n

/-- JavaScript `caches.set(name, inst)`: replace the existing entry or
append. -/
def regSet {α β : Type} : Registry α β → String → Instance α β → Registry α β
  | [], n, inst => [(n, inst)]
  | (k, v) :: rest, n, inst =>
    if k = n then (n, inst) :: rest else (k, v) :: regSet rest n inst

/-- JavaScript `caches.delete(name)`: remove the entry with that name. -/
def regDelete {α β : Type} : Registry α β → String → Registry α β
  | [], _ => []
  | (k, v) :: rest, n => if k = n then rest else (k, v) :: regDelete rest n

/-- The `init` function (src/index.js lines 93-240) run to completion with
the initial loader outcome supplied as the contents of `loader` (`none`
models a missing or non-async `asyncLoadFunction`).  Check order as in the
source: already-initialized, name validation, loader validation, ttl
validation; then the frozen config is built (`checkTimeMs = ttl / 10`), the
initial load is awaited — its failure aborts `init` with the loader's error
before `setInterval` ever runs — and on success the interval is armed and
the instance returned.  The `init:start`/`init:end` emissions carry no state
and are omitted. -/
def initRun {α β : Type} [DecidableEq α] (reg : Registry α β) (name : Option String)
    (ttl : JSNum) (loader : Option (Except JsError (Snapshot α β))) (now : Nat) :
    Except JsError (Instance α β) :=
  if (regGet reg name).isSome then
    .error (alreadyInitError (name.getD ""))
  else if !(validName name) then
    .error nameError
  else
    match loader with
    | none => .error loaderError
    | some r =>
      if JSNum.ltNum ttl (JSNum.num 1000) then .error ttlError
      else
        let cfg : CacheConfig := { name := name.getD "", ttl := ttl, checkTimeMs := JSNum.divTen ttl }
        let s0 : CState α β :=
          { map := [], isOutdated := false, count := 0, lastLoadTimestamp := none,
            isForcedReload := false, intervalActive := false, pending := [],
            unhandledRejection := false }
        let out := loadRun cfg now r s0
        match out.2.1 with
        | some e => .error e
        | none => .ok { config := cfg, state := { out.1 with intervalActive := true } }

/-- The registry `create` function (src/index.js lines 50-53): awaits `init`
and, only on success, stores the instance under its name.  On failure the
registry is left untouched. -/
def createRun {α β : Type} [DecidableEq α] (reg : Registry α β) (name : Option String)
    (ttl : JSNum) (loader : Option (Except JsError (Snapshot α β))) (now : Nat) :
    Registry α β × Option JsError :=
  match initRun reg name ttl loader now with
  | .error e => (reg, some e)
  | .ok inst => (regSet reg (name.getD "") inst, none)

/-- The registry `get` function (src/index.js lines 60-63): validates the
name, then looks it up — absence is `none`, not an error. -/
def regGetRun {α β : Type} (reg : Registry α β) (name : Option String) :
    Except JsError (Option (Instance α β)) :=
  if validName name then .ok (regGet reg name) else .error nameError

/-- The registry `destroy` function (src/index.js lines 69-76): validates
the name; if an instance is registered under it, shuts it down and removes
it, otherwise does nothing.  (The shutdown's effect on the removed
instance's state is observable only through retained handles, modelled by
`Ev.shutdownEv`.) -/
def destroyRun {α β : Type} (reg : Registry α β) (name : Option String) :
    Registry α β × Option JsError :=
  match name with
  | none => (reg, some nameError)
  | some n =>
    if validName (some n) then
      match reg.lookup n with
      | none => (reg, none)
      | some _ => (regDelete reg n, none)
    else (reg, some nameError)

/-- The registry `destroyAll` function (src/index.js lines 82-87): walks the
keys, shutting down and deleting every entry. -/
def destroyAllRun {α β : Type} : Registry α β → Registry α β
  | [] => []
  | _ :: rest => destroyAllRun rest

/-- The reload condition as the (amended) specification words it: forced
reload pending, or `lastLoadTimestamp` unset or zero (the source tests
JavaScript falsiness), or the TTL elapsed.  Stated separately from
`loadGuard` so the code's decision can be proved to refine it. -/
def loadSpecCond {α β : Type} (ttl : JSNum) (now : Nat) (s : CState α β) : Bool :=
  s.isForcedReload || s.lastLoadTimestamp == none || s.lastLoadTimestamp == some 0
    || isExpiredAt ttl now s.lastLoadTimestamp

/-- The reload condition exactly as claim C4 states it: forced reload
pending, or `lastLoadTimestamp` unset, or the TTL elapsed — without the
falsy-zero case the source actually tests. -/
def loadClaimCond {α β : Type} (ttl : JSNum) (now : Nat) (s : CState α β) : Bool :=
  s.isForcedReload || s.lastLoadTimestamp == none
    || isExpiredAt ttl now s.lastLoadTimestamp

/-- Decidable equality of JavaScript outcomes, for evaluating the model on
concrete inputs. -/
instance {ε σ : Type} [DecidableEq ε] [DecidableEq σ] : DecidableEq (Except ε σ) :=
  fun a b =>
    match a, b with
    | .ok x, .ok y =>
      if h : x = y then .isTrue (by rw [h])
      else .isFalse (fun hc => h (Except.ok.inj hc))
    | .ok _, .error _ => .isFalse (fun hc => Except.noConfusion hc)
    | .error _, .ok _ => .isFalse (fun hc => Except.noConfusion hc)
    | .error x, .error y =>
      if h : x = y then .isTrue (by rw [h])
      else .isFalse (fun hc => h (Except.error.inj hc))

/-- Unfolding lemma: one uninterleaved `load()` invocation, written with the
guard named. -/
theorem loadRun_eq {α β : Type} [DecidableEq α] (cfg : CacheConfig) (now : Nat)
    (r : Except JsError (Snapshot α β)) (s : CState α β) :
    loadRun cfg now r s =
      if loadGuard cfg.ttl now s then
        match r with
        | .ok m =>
          ({ s with count := s.count + 1, lastLoadTimestamp := some now,
                    isForcedReload := false, map := m, isOutdated := false }, none,
            [CacheEvent.loadEv cfg.name (s.count + 1) s.isForcedReload now
              (isExpiredAt cfg.ttl now s.lastLoadTimestamp)])
        | .error e =>
          ({ s with count := s.count + 1, lastLoadTimestamp := some now,
                    isForcedReload := false, isOutdated := true }, some e,
            [CacheEvent.loadEv cfg.name (s.count + 1) s.isForcedReload now
              (isExpiredAt cfg.ttl now s.lastLoadTimestamp)])
      else (s, none, []) := by
  cases r <;> rfl

/-- Walking the registry with `destroyAll` empties it. -/
theorem destroyAllRun_eq_nil {α β : Type} : ∀ reg : Registry α β, destroyAllRun reg = []
  | [] => rfl
  | _ :: rest => destroyAllRun_eq_nil rest

/-- C8: `getUnsafe(key)` never fails (it is a total function of the state in
this embedding, the source method containing no `throw`): in every state —
fresh, stale or shut down — it returns the record whose `value` is the
current snapshot's entry for the key (`none` when the key is absent from
the snapshot or is `null`/missing) and whose `isOutdated` is exactly the
instance's outdated flag. -/
theorem c8_getUnsafe_total_read {α β : Type} [DecidableEq α]
    (cfg : CacheConfig) (s : CState α β) (key : Option α) :
    (getUnsafeRun cfg s key).1 = ⟨mapGet s.map key, s.isOutdated⟩ ∧
    (getUnsafeRun cfg (shutdownRun s) key).1 = ⟨mapGet s.map key, true⟩ ∧
    mapGet s.map (none : Option α) = (none : Option β) :=
  ⟨rfl, rfl, rfl⟩

/-- C7: when the outdated flag is set, `get(key)` fails with the error
carrying code `ERR_CACHE_OUT_OF_DATE`, uniformly in the key and in the
snapshot (so without looking the key up); when the flag is clear it returns
the snapshot's entry for the key, absent keys yielding `undefined`. -/
theorem c7_get_outdated_guard {α β : Type} [DecidableEq α]
    (cfg : CacheConfig) (s : CState α β) (key : Option α) :
    (s.isOutdated = true →
      (getRun cfg s key).1 = Except.error outOfDateError ∧
      outOfDateError.code = some "ERR_CACHE_OUT_OF_DATE" ∧
      ∀ (m : Snapshot α β) (k2 : Option α),
        (getRun cfg { s with map := m } k2).1 = Except.error outOfDateError) ∧
    (s.isOutdated = false → (getRun cfg s key).1 = Except.ok (mapGet s.map key)) := by
  constructor
  · intro h
    refine ⟨by simp [getRun, h], rfl, fun m k2 => by simp [getRun, h]⟩
  · intro h
    simp [getRun, h]

/-- C5: a forced `refresh()` whose loader fails rethrows exactly the
loader's error to its caller, marks the instance outdated, and leaves the
previous snapshot intact — `getUnsafe` still returns every pre-failure
value, now flagged `isOutdated: true` — and the flag survives every further
load invocation that does not succeed (failed or skipped alike), clearing
only when a load succeeds. -/
theorem c5_refresh_failure {α β : Type} [DecidableEq α]
    (cfg : CacheConfig) (now : Nat) (e : JsError) (s : CState α β) (key : Option α) :
    (refreshRun cfg now (Except.error e) s).2.1 = some e ∧
    (refreshRun cfg now (Except.error e) s).1.isOutdated = true ∧
    (refreshRun cfg now (Except.error e) s).1.map = s.map ∧
    (getUnsafeRun cfg (refreshRun cfg now (Except.error e) s).1 key).1 =
      ⟨mapGet s.map key, true⟩ ∧
    ∀ (now2 : Nat) (e2 : JsError),
      (loadRun cfg now2 (Except.error e2)
        (refreshRun cfg now (Except.error e) s).1).1.isOutdated = true := by
  refine ⟨rfl, rfl, rfl, rfl, fun now2 e2 => ?_⟩
  rw [loadRun_eq]
  split
  · rfl
  · rfl

/-- C4 (amended): one invocation of the internal load routine invokes the
loader exactly when a forced reload is pending, or `lastLoadTimestamp` is
unset or zero (the source tests JavaScript falsiness of the timestamp, so
the epoch value `0` also counts), or `now - lastLoadTimestamp > ttl`;
otherwise the invocation changes no state and emits nothing.  When it does
reload, it increments `loadCount`, stamps `lastLoadTimestamp := now` and
clears the forced flag — all of it before the loader's outcome is consumed,
so these effects stand even when the loader fails. -/
theorem c4_load_decision {α β : Type} [DecidableEq α]
    (cfg : CacheConfig) (now : Nat) (r : Except JsError (Snapshot α β)) (s : CState α β) :
    loadGuard cfg.ttl now s = loadSpecCond cfg.ttl now s ∧
    (loadGuard cfg.ttl now s = false → loadRun cfg now r s = (s, none, [])) ∧
    (loadGuard cfg.ttl now s = true →
      (loadRun cfg now r s).1.count = s.count + 1 ∧
      (loadRun cfg now r s).1.lastLoadTimestamp = some now ∧
      (loadRun cfg now r s).1.isForcedReload = false) := by
  refine ⟨?_, ?_, ?_⟩
  · cases h : s.lastLoadTimestamp <;>
      simp [loadGuard, loadSpecCond, tsFalsy, h]
  · intro h
    rw [loadRun_eq, h]
    rfl
  · intro h
    rw [loadRun_eq, h]
    cases r <;> exact ⟨rfl, rfl, rfl⟩

/-- Invariant behind C1: a state that is outdated, whose interval timer is
cancelled and that has no load in flight stays frozen under every sequence
of event-loop turns containing no `refresh()` call: ticks fire nothing (the
interval is cancelled), there is no pending promise to settle, and further
shutdowns change nothing. -/
theorem run_frozen_noRefresh {α β : Type} (ttl : JSNum) :
    ∀ (evs : List (Ev α β)) (s : CState α β),
      s.isOutdated = true → s.intervalActive = false → s.pending = [] →
      evs.all (fun e => !e.isRefreshCall) = true →
      (run ttl s evs).isOutdated = true ∧ (run ttl s evs).intervalActive = false ∧
      (run ttl s evs).pending = [] ∧ (run ttl s evs).count = s.count ∧
      (run ttl s evs).map = s.map := by
  intro evs
  induction evs with
  | nil => exact fun s h1 h2 h3 _ => ⟨h1, h2, h3, rfl, rfl⟩
  | cons e es ih =>
    intro s h1 h2 h3 hall
    rw [List.all_cons, Bool.and_eq_true] at hall
    obtain ⟨he, hes⟩ := hall
    simp only [run]
    cases e with
    | tick now =>
      have hstep : step ttl s (Ev.tick now) = s := by simp [step, h2]
      rw [hstep]
      exact ih s h1 h2 h3 hes
    | refreshCall now => simp [Ev.isRefreshCall] at he
    | resolve r =>
      have hstep : step ttl s (Ev.resolve r) = s := by simp [step, h3]
      rw [hstep]
      exact ih s h1 h2 h3 hes
    | shutdownEv =>
      have hstep : step ttl s Ev.shutdownEv =
          { s with isOutdated := true, intervalActive := false } := rfl
      rw [hstep]
      exact ih _ rfl rfl h3 hes

/-- C1 (amended): after shutdown — provided no load was still in flight at
that moment and `refresh()` is never invoked on a retained handle — no
sequence of timer ticks, promise settlements and further shutdowns ever
executes the loader again (`count` never moves), the instance stays
permanently outdated, `get` always fails with the `ERR_CACHE_OUT_OF_DATE`
error and `getUnsafe` always reports `isOutdated: true`.  The proviso is
forced by the counterexample: the source's `[shutdown]()` only clears the
interval and sets the flag, so a retained handle's `refresh()` still runs
the loader and, on success, even clears the flag again. -/
theorem c1_shutdown_frozen {α β : Type} [DecidableEq α]
    (cfg : CacheConfig) (ttl : JSNum) (s : CState α β) (evs : List (Ev α β)) (key : Option α)
    (hp : s.pending = [])
    (hr : evs.all (fun e => !e.isRefreshCall) = true) :
    (run ttl (shutdownRun s) evs).count = s.count ∧
    (run ttl (shutdownRun s) evs).isOutdated = true ∧
    (getRun cfg (run ttl (shutdownRun s) evs) key).1 = Except.error outOfDateError ∧
    ((getUnsafeRun cfg (run ttl (shutdownRun s) evs) key).1).isOutdated = true := by
  obtain ⟨ho, hi2, hp2, hc, hm⟩ :=
    run_frozen_noRefresh ttl evs (shutdownRun s) rfl rfl hp hr
  exact ⟨hc, ho, by simp [getRun, ho], by simp [getUnsafeRun, ho]⟩

/-- C1 witness: a concrete shut-down instance followed by a timer tick, a
stray settlement and a second shutdown — the loader never runs again and
the instance stays outdated. -/
theorem c1_shutdown_frozen_witness :
    (run (JSNum.num 1000)
      (shutdownRun (⟨[(1, 10)], false, 3, some 100, false, true, [], false⟩ : CState Nat Nat))
      [Ev.tick 300, Ev.resolve (Except.ok []), Ev.shutdownEv]).count = 3 ∧
    (run (JSNum.num 1000)
      (shutdownRun (⟨[(1, 10)], false, 3, some 100, false, true, [], false⟩ : CState Nat Nat))
      [Ev.tick 300, Ev.resolve (Except.ok []), Ev.shutdownEv]).isOutdated = true :=
  ⟨(c1_shutdown_frozen ⟨"cacheTest", JSNum.num 1000, JSNum.num 100⟩ (JSNum.num 1000) _ _
      (some 1) rfl (by decide)).1,
   (c1_shutdown_frozen ⟨"cacheTest", JSNum.num 1000, JSNum.num 100⟩ (JSNum.num 1000) _ _
      (some 1) rfl (by decide)).2.1⟩

/-- C1 counterexample: `refresh()` on a retained handle after shutdown runs
the loader again (`count` goes 1 to 2) and a successful settlement clears
the outdated flag, after which even `get` succeeds — refuting "no operation
on a previously obtained handle ever executes the loader again, and the
outdated flag remains true forever, even if refresh() is called". -/
theorem c1_shutdown_refresh_counterexample :
    (run (JSNum.num 1000)
      (shutdownRun (⟨[(1, 10)], false, 1, some 100, false, true, [], false⟩ : CState Nat Nat))
      [Ev.refreshCall 200, Ev.resolve (Except.ok [(1, 10)])]).isOutdated = false ∧
    (run (JSNum.num 1000)
      (shutdownRun (⟨[(1, 10)], false, 1, some 100, false, true, [], false⟩ : CState Nat Nat))
      [Ev.refreshCall 200, Ev.resolve (Except.ok [(1, 10)])]).count = 2 ∧
    (getRun ⟨"cacheTest", JSNum.num 1000, JSNum.num 100⟩
      (run (JSNum.num 1000)
        (shutdownRun (⟨[(1, 10)], false, 1, some 100, false, true, [], false⟩ : CState Nat Nat))
        [Ev.refreshCall 200, Ev.resolve (Except.ok [(1, 10)])]) (some 1)).1 =
      Except.ok (some 10) :=
  ⟨by decide, by decide, by decide⟩

/-- C2 (amended): the stamping of `lastLoadTimestamp` before the `await`
protects only against timer ticks: a tick arriving while the stamp is a
nonzero time within the TTL and no forced reload is pending is a complete
no-op, whatever is in flight — so timer-driven loads never overlap each
other within a TTL window.  A forced `refresh()` arriving mid-flight,
however, bypasses the stamp and starts a second concurrent loader
invocation (see the counterexample), as does a tick once the in-flight
load's stamp has aged past the TTL. -/
theorem c2_tick_no_second_load {α β : Type} (ttl : ℚ) (now t : Nat) (s : CState α β)
    (hf : s.isForcedReload = false) (hl : s.lastLoadTimestamp = some t) (ht : t ≠ 0)
    (httl : (((now : Int) - (t : Int) : Int) : ℚ) ≤ ttl) :
    step (JSNum.num ttl) s (Ev.tick now) = s := by
  have hg : loadGuard (JSNum.num ttl) now s = false := by
    simp [loadGuard, hf, hl, tsFalsy, isExpiredAt, ht]
    push_cast at httl ⊢
    linarith
  show (if s.intervalActive then loadStart (JSNum.num ttl) LoadOrigin.timer now s else s) = s
  cases s.intervalActive <;> simp [loadStart, hg]

/-- C2 witness: a loader invocation is in flight (stamped at t = 100) and a
timer tick arrives at t = 500, inside the 1000 ms TTL: the tick changes
nothing — no second loader invocation starts. -/
theorem c2_tick_no_second_load_witness :
    step (JSNum.num 1000)
      (⟨[(1, 10)], false, 2, some 100, false, true, [LoadOrigin.timer], false⟩ : CState Nat Nat)
      (Ev.tick 500) =
      (⟨[(1, 10)], false, 2, some 100, false, true, [LoadOrigin.timer], false⟩ : CState Nat Nat) :=
  c2_tick_no_second_load 1000 500 100 _ rfl rfl (by decide) (by norm_num)

/-- C2 counterexample: with a background load already in flight (started by
the tick at t = 1201, after the TTL of the load stamped at t = 100
elapsed), a `refresh()` at t = 1300 sets `isForcedReload` and so passes the
reload decision regardless of the fresh stamp: two loader invocations are
now in flight against the same instance at once. -/
theorem c2_overlap_counterexample :
    (run (JSNum.num 1000)
      (⟨[(1, 10)], false, 1, some 100, false, true, [], false⟩ : CState Nat Nat)
      [Ev.tick 1201, Ev.refreshCall 1300]).pending =
      [LoadOrigin.timer, LoadOrigin.forced] := by
  decide

/-- C3: the code evaluated at the failing input: a background timer tick at
t = 1201 (TTL 1000 ms, last load stamped at t = 100) starts a loader
invocation whose promise rejects.  `load()` rethrows after setting
`outdated`, and the `setInterval(async () => await load(), …)` callback
(src/index.js line 186) installs no rejection handler, so the failure
escapes the timer path as an unhandled promise rejection — process-fatal
under Node's default — instead of being caught there as the claim states;
only the simultaneous `outdated = true` part matches the claim. -/
theorem c3_background_failure_escapes :
    (run (JSNum.num 1000)
      (⟨[(1, 10)], false, 1, some 100, false, true, [], false⟩ : CState Nat Nat)
      [Ev.tick 1201, Ev.resolve (Except.error ⟨"Data resource error!", none⟩)]).unhandledRejection
      = true ∧
    (run (JSNum.num 1000)
      (⟨[(1, 10)], false, 1, some 100, false, true, [], false⟩ : CState Nat Nat)
      [Ev.tick 1201, Ev.resolve (Except.error ⟨"Data resource error!", none⟩)]).isOutdated
      = true :=
  ⟨by decide, by decide⟩

/-- C6: when the initial (awaited) load fails, `create` fails with exactly
the loader's error, the registry keeps no entry under the name (a
subsequent `Registry.get(name)` finds nothing), and no instance — hence no
armed timer — ever exists: `init` aborts at the `await load()` on line 182,
before `setInterval` on line 186 runs. -/
theorem c6_create_initial_load_failure {α β : Type} [DecidableEq α]
    (reg : Registry α β) (n : String) (ttl : JSNum) (e : JsError) (now : Nat)
    (hn : reg.lookup n = none) (hv : validName (some n) = true)
    (ht : JSNum.ltNum ttl (JSNum.num 1000) = false) :
    initRun reg (some n) ttl (some (Except.error e)) now = Except.error e ∧
    createRun reg (some n) ttl (some (Except.error e)) now = (reg, some e) ∧
    regGet (createRun reg (some n) ttl (some (Except.error e)) now).1 (some n) = none := by
  have h1 : initRun reg (some n) ttl (some (Except.error e)) now = Except.error e := by
    simp [initRun, regGet, hn, hv, ht, loadRun, tsFalsy]
  refine ⟨h1, ?_, ?_⟩
  · simp [createRun, h1]
  · simp [createRun, h1, regGet, hn]

/-- C6 witness: a loader that rejects on the very first call leaves an empty
registry empty and surfaces its own error from `create`. -/
theorem c6_create_initial_load_failure_witness :
    initRun ([] : Registry Nat Nat) (some "cacheTest") (JSNum.num 5555)
      (some (Except.error ⟨"Data resource error!", none⟩)) 100 =
      Except.error ⟨"Data resource error!", none⟩ ∧
    createRun ([] : Registry Nat Nat) (some "cacheTest") (JSNum.num 5555)
      (some (Except.error ⟨"Data resource error!", none⟩)) 100 =
      ([], some ⟨"Data resource error!", none⟩) ∧
    regGet (createRun ([] : Registry Nat Nat) (some "cacheTest") (JSNum.num 5555)
      (some (Except.error ⟨"Data resource error!", none⟩)) 100).1 (some "cacheTest") = none :=
  c6_create_initial_load_failure [] "cacheTest" (JSNum.num 5555)
    ⟨"Data resource error!", none⟩ 100 rfl (by decide) (by decide)

/-- C9: for a valid name, `destroy` of an unregistered name is a no-op and
never fails — in fact `destroy` of a valid name never fails at all, so a
second `destroy` in a row cannot fail either; `destroyAll` empties the
registry (every name maps to absent afterwards) and a second `destroyAll`,
including on the now-empty registry, is equally harmless. -/
theorem c9_destroy_idempotent {α β : Type} (reg : Registry α β) (n : String)
    (hv : validName (some n) = true) :
    (reg.lookup n = none → destroyRun reg (some n) = (reg, none)) ∧
    (destroyRun reg (some n)).2 = none ∧
    (destroyRun (destroyRun reg (some n)).1 (some n)).2 = none ∧
    destroyAllRun reg = ([] : Registry α β) ∧
    (∀ m : String, (destroyAllRun reg).lookup m = (none : Option (Instance α β))) ∧
    destroyAllRun (destroyAllRun reg) = ([] : Registry α β) := by
  have hnone : ∀ r : Registry α β, (destroyRun r (some n)).2 = none := by
    intro r
    simp only [destroyRun, hv, if_true]
    cases hl : r.lookup n <;> simp
  refine ⟨?_, hnone reg, hnone _, destroyAllRun_eq_nil reg, ?_, ?_⟩
  · intro h
    simp [destroyRun, hv, h]
  · intro m
    rw [destroyAllRun_eq_nil]
    rfl
  · rw [destroyAllRun_eq_nil]

/-- C9 witness: destroying an unregistered (but valid) name on a concrete
one-entry registry reports no error. -/
theorem c9_destroy_idempotent_witness :
    (destroyRun
      ([("other", ⟨⟨"other", JSNum.num 1000, JSNum.num 100⟩,
          ⟨[(1, 10)], false, 1, some 100, false, true, [], false⟩⟩)] : Registry Nat Nat)
      (some "cacheTest")).2 = none :=
  (c9_destroy_idempotent _ "cacheTest" (by decide)).2.1

/-- C10: `init` rejects with the ttl error exactly when the JavaScript
comparison `ttl < 1000` is true; `NaN` fails that comparison, so a `NaN`
ttl sails through validation and the cache is constructed with
`checkTimeMs = ttl / 10`, itself `NaN` (a timer period Node treats as 1 ms
— the validation does not catch invalid durations, only small ones). -/
theorem c10_ttl_validation {α β : Type} [DecidableEq α]
    (reg : Registry α β) (n : String) (ttl : JSNum) (m : Snapshot α β) (now : Nat)
    (hn : reg.lookup n = none) (hv : validName (some n) = true) :
    (initRun reg (some n) ttl (some (Except.ok m)) now = Except.error ttlError ↔
      JSNum.ltNum ttl (JSNum.num 1000) = true) ∧
    initRun reg (some n) JSNum.nan (some (Except.ok m)) now =
      Except.ok ⟨⟨n, JSNum.nan, JSNum.nan⟩,
        ⟨m, false, 1, some now, false, true, [], false⟩⟩ := by
  have hok : ∀ t : JSNum, JSNum.ltNum t (JSNum.num 1000) = false →
      initRun reg (some n) t (some (Except.ok m)) now =
        Except.ok ⟨⟨n, t, JSNum.divTen t⟩, ⟨m, false, 1, some now, false, true, [], false⟩⟩ := by
    intro t h
    simp [initRun, regGet, hn, hv, h, loadRun, tsFalsy]
  constructor
  · constructor
    · intro h
      cases hlt : JSNum.ltNum ttl (JSNum.num 1000) with
      | true => rfl
      | false =>
        rw [hok ttl hlt] at h
        exact Except.noConfusion h
    · intro h
      simp [initRun, regGet, hn, hv, h]
  · rw [hok JSNum.nan rfl]
    rfl

/-- C10 witness: a `NaN` ttl is not rejected; the instance is built with a
`NaN` check interval. -/
theorem c10_ttl_validation_witness :
    initRun ([] : Registry Nat Nat) (some "cacheTest") JSNum.nan
      (some (Except.ok [(1, 10)])) 100 =
      Except.ok ⟨⟨"cacheTest", JSNum.nan, JSNum.nan⟩,
        ⟨[(1, 10)], false, 1, some 100, false, true, [], false⟩⟩ :=
  (c10_ttl_validation [] "cacheTest" JSNum.nan [(1, 10)] 100 rfl (by decide)).2

/-- C4 counterexample: with `lastLoadTimestamp = 0` (the epoch), no forced
reload pending and the TTL not elapsed, the reload condition exactly as the
claim states it is false — the invocation should change no state — yet the
code reloads (`loadCount` goes from 1 to 2), because line 130 of the source
tests `!lastLoadTimestamp` and the number `0` is falsy in JavaScript. -/
theorem c4_counterexample :
    loadClaimCond (JSNum.num 1000) 500
      (⟨[(1, 10)], false, 1, some 0, false, true, [], false⟩ : CState Nat Nat) = false ∧
    (loadRun ⟨"cacheTest", JSNum.num 1000, JSNum.num 100⟩ 500 (Except.ok [(2, 20)])
      (⟨[(1, 10)], false, 1, some 0, false, true, [], false⟩ : CState Nat Nat)).1.count = 2 := by
  constructor <;> decide

end OssCache
